import Mathlib

/-!
Shallow embedding of the PA-V2 browser client (`frontend/script.js`).

Each event handler of the source is modelled as a pure function from the
in-memory client state (the `state` object of the source, plus the two
DOM-visible bits the spec calls the busy indicator and the status label)
and the outcome of its network call to a new state paired with the list
of UI / network side effects it performs, in source order.  Network
calls are suspension points in the source; their outcomes are passed in
as explicit parameters.
-/

/-- Severity class passed to `showToast` in the source. -/
inductive Severity where
  | info
  | success
  | warning
  | error
deriving DecidableEq, Repr

/-- One entry of `state.conversationHistory`: `{ user, assistant, timestamp }`. -/
structure Turn where
  user : String
  assistant : String
  timestamp : String
deriving DecidableEq, Repr

/-- One entry of `state.reminders` as served by `GET /reminders`: `{ id, time, text }`. -/
structure Reminder where
  id : Nat
  time : String
  text : String
deriving DecidableEq, Repr

/-- `state.stats`. -/
structure Stats where
  messageCount : Nat
  voiceCount : Nat
deriving DecidableEq, Repr

/-- The source's `state` object, together with the busy indicator
(`loadingOverlay`'s `show` class, toggled by `showLoading`/`hideLoading`)
and the connection status label set by `updateConnectionStatus`. -/
structure ClientState where
  isListening : Bool
  isProcessing : Bool
  apiConnected : Bool
  conversationHistory : List Turn
  reminders : List Reminder
  stats : Stats
  loadingShown : Bool
  statusLabel : String
deriving DecidableEq, Repr

/-- One rendered reminder row of `updateRemindersUI`: the interpolated
due-time label, the escaped text, and the id bound to the delete button. -/
structure ReminderRow where
  timeLabel : String
  textHtml : String
  deleteTargetId : Nat
deriving DecidableEq, Repr

/-- The rendered reminders list: either the empty-state placeholder or one
row per cached reminder. -/
inductive RemindersView where
  | emptyPlaceholder
  | rows (items : List ReminderRow)
deriving DecidableEq, Repr

/-- Observable side effects performed by the handlers, in source order. -/
inductive Effect where
  | netCall (method : String) (path : String)
  | toast (msg : String) (sev : Severity)
  | popup (msg : String)
  | speak (text : String)
  | speechCancel
  | chatMessage (msg : String) (sender : String) (isError : Bool)
  | removeWelcome
  | renderWelcome
  | clearInput
  | updateStats
  | showLoading (text : String)
  | hideLoading
  | scheduleFetchReminders
  | fetchRemindersNow
  | startRecognition
  | voiceButtonUpdate (listening : Bool)
  | renderReminders (view : RemindersView)
deriving DecidableEq, Repr

/-- JavaScript whitespace (the common ASCII subset) used by `String.prototype.trim`. -/
def isWs (c : Char) : Bool :=
  c == ' ' || c == '\t' || c == '\n' || c == '\r' || c == '\x0b' || c == '\x0c'

/-- `String.prototype.trim`: strip leading and trailing whitespace. -/
def jsTrim (s : String) : String :=
  String.mk (((s.toList.dropWhile isWs).reverse.dropWhile isWs).reverse)

/-- JavaScript `a || d` on an optional string field: the field's value when
present and truthy (non-empty), otherwise the default. -/
def jsOr (o : Option String) (d : String) : String :=
  match o with
  | some s => if s = "" then d else s
  | none => d

/-- JavaScript truthiness of an optional string field: present and non-empty. -/
def truthyOptStr : Option String → Bool
  | some s => !(s == "")
  | none => false

/-- Whether `needle` is a prefix of the second list (JS `String.prototype.startsWith` on char lists). -/
def isPre : List Char → List Char → Bool
  | [], _ => true
  | _ :: _, [] => false
  | a :: as, b :: bs => a == b && isPre as bs

/-- Whether `needle` occurs as a contiguous substring of `hay`
(JS `String.prototype.includes` on char lists). -/
def hasSub (needle : List Char) : List Char → Bool
  | [] => isPre needle []
  | c :: rest => isPre needle (c :: rest) || hasSub needle rest

/-- ASCII lower-casing of one character (`String.prototype.toLowerCase`,
restricted to the ASCII range relevant to the "remind" keyword). -/
def jsToLowerChar (c : Char) : Char :=
  if 'A' ≤ c ∧ c ≤ 'Z' then Char.ofNat (c.toNat + 32) else c

/-- `command.toLowerCase().includes("remind")` from `processCommand`. -/
def mentionsRemind (command : String) : Bool :=
  hasSub "remind".toList (command.toList.map jsToLowerChar)

/-- Browser HTML text-node escaping; the source's `escapeHtml` delegates this
to the DOM (`textContent` then `innerHTML`), which escapes `&`, `<`, `>`. -/
def escapeChar (c : Char) : String :=
  if c = '&' then "&amp;"
  else if c = '<' then "&lt;"
  else if c = '>' then "&gt;"
  else String.singleton c

/-- `escapeHtml` of the source, modelled as standard HTML text-node escaping. -/
def escapeHtml (s : String) : String :=
  String.join (s.toList.map escapeChar)

/-- `speakText` of the source: skip empty or whitespace-only text, otherwise
cancel any in-progress utterance and speak. -/
def speakText (text : String) : List Effect :=
  if text = "" ∨ jsTrim text = "" then []
  else [Effect.speechCancel, Effect.speak text]

/-- Outcome of the `POST /process` round trip inside `processCommand`:
either a parsed JSON body (`success`, `response`, `error` fields) or a
thrown transport / parse error. -/
inductive ProcessOutcome where
  | response (success : Bool) (resp : String) (err : Option String)
  | transportError
deriving DecidableEq, Repr

/-- Outcome of the `GET /trigger_popup` round trip inside
`checkReminderAlerts`: a parsed body (`success`, optional `message`) or a
thrown fetch / parse error. -/
inductive TriggerResult where
  | fetchError
  | ok (success : Bool) (message : Option String)
deriving DecidableEq, Repr

/-- Outcome of a call whose body is not inspected beyond `response.ok`
(`DELETE /reminders/{id}`, `DELETE /history`). -/
inductive SimpleResult where
  | ok
  | httpError
  | transportError
deriving DecidableEq, Repr

/-- Whether `recognition.start()` returned normally or threw synchronously. -/
inductive VoiceStartResult where
  | started
  | startFailed
deriving DecidableEq, Repr

/-- Parsed `GET /health` body: `data.components && data.components.microphone`
collapses to an optional string (absent when `components` is absent or
carries no `microphone` field), alongside the top-level `microphone` field. -/
structure HealthData where
  componentsMicrophone : Option String
  microphone : Option String
deriving DecidableEq, Repr

/-- Outcome of the `GET /health` round trip inside `checkAPIHealth`. -/
inductive HealthResult where
  | ok (data : HealthData)
  | httpError
  | networkError
deriving DecidableEq, Repr

/-- Outcome of the `GET /reminders` round trip inside `fetchReminders`. -/
inductive RemindersFetchResult where
  | ok (success : Bool) (reminders : Option (List Reminder))
  | httpError
  | transportError
deriving DecidableEq, Repr

/-- `(data.components && data.components.microphone) || data.microphone`
from `checkAPIHealth`. -/
def healthMicStatus (d : HealthData) : Option String :=
  match d.componentsMicrophone with
  | some m => if m ≠ "" then some m else d.microphone
  | none => d.microphone

/-- `updateConnectionStatus` of the source: set the connected flag and the
status label. -/
def updateConnectionStatus (st : ClientState) (connected : Bool) (label : String) : ClientState :=
  { st with apiConnected := connected, statusLabel := label }

/-- `checkAPIHealth` of the source: probe `GET /health`; on an ok response
mark connected and maybe warn about the server microphone; on a non-ok
status mark disconnected with label "Connection Error" (no toast); on a
thrown fetch error mark disconnected and show the error toast. -/
def checkAPIHealth (st : ClientState) (result : HealthResult) : ClientState × List Effect :=
  match result with
  | HealthResult.ok d =>
      (updateConnectionStatus st true "Connected",
        [Effect.netCall "GET" "/health"] ++
          (if healthMicStatus d = some "not detected" then
            [Effect.toast "⚠️ Microphone not detected on server. Backend voice may not work." Severity.warning]
          else []))
  | HealthResult.httpError =>
      (updateConnectionStatus st false "Connection Error", [Effect.netCall "GET" "/health"])
  | HealthResult.networkError =>
      (updateConnectionStatus st false "Disconnected",
        [Effect.netCall "GET" "/health",
         Effect.toast "❌ Cannot connect to server. Make sure the backend is running on port 5000." Severity.error])

/-- `processCommand` of the source: set the processing flag, show the busy
overlay, issue `POST /process`, then branch on the outcome; the busy
overlay is hidden on every path and the `finally` block releases the
processing flag on every path. -/
def processCommand (st : ClientState) (command : String) (outcome : ProcessOutcome) (ts : String) :
    ClientState × List Effect :=
  let stBusy := { st with isProcessing := true, loadingShown := true }
  let branch : ClientState × List Effect :=
    match outcome with
    | ProcessOutcome.response true resp _ =>
        ({ stBusy with
            loadingShown := false,
            conversationHistory := stBusy.conversationHistory ++ [⟨command, resp, ts⟩] },
         [Effect.hideLoading, Effect.chatMessage resp "assistant" false] ++
           (if mentionsRemind command then [Effect.scheduleFetchReminders] else []))
    | ProcessOutcome.response false _ err =>
        ({ stBusy with loadingShown := false },
         [Effect.hideLoading,
          Effect.chatMessage "Sorry, I encountered an error processing your request." "assistant" true,
          Effect.toast ("❌ " ++ jsOr err "Processing failed") Severity.error])
    | ProcessOutcome.transportError =>
        ({ stBusy with loadingShown := false },
         [Effect.hideLoading,
          Effect.chatMessage "Sorry, I could not connect to the server. Please check if the backend is running." "assistant" true,
          Effect.toast "❌ Connection error" Severity.error])
  ({ branch.1 with isProcessing := false },
    [Effect.showLoading "🤔 Processing...", Effect.netCall "POST" "/process"] ++ branch.2)

/-- `handleSendMessage` of the source: trim the input field; warn on blank
input; error when disconnected; silently drop while processing; otherwise
render the user turn, bump the message counter, and run `processCommand`. -/
def handleSendMessage (st : ClientState) (inputValue : String) (outcome : ProcessOutcome) (ts : String) :
    ClientState × List Effect :=
  let message := jsTrim inputValue
  if message = "" then
    (st, [Effect.toast "⚠️ Please enter a message" Severity.warning])
  else if !st.apiConnected then
    (st, [Effect.toast "❌ Not connected to server" Severity.error])
  else if st.isProcessing then
    (st, [])
  else
    let st1 := { st with stats := { st.stats with messageCount := st.stats.messageCount + 1 } }
    let after := processCommand st1 message outcome ts
    (after.1,
      [Effect.clearInput, Effect.chatMessage message "user" false, Effect.removeWelcome,
       Effect.updateStats] ++ after.2)

/-- `sendQuickCommand` of the source: write the command into the input field
and invoke `handleSendMessage`. -/
def sendQuickCommand (st : ClientState) (command : String) (outcome : ProcessOutcome) (ts : String) :
    ClientState × List Effect :=
  handleSendMessage st command outcome ts

/-- `handleVoiceInput` of the source up to starting the recognition session:
reject when speech recognition is unsupported, when disconnected, or when
already listening; otherwise set the listening flag, show the listening
overlay, and start recognition (which may throw synchronously). -/
def handleVoiceInput (st : ClientState) (speechSupported : Bool) (startRes : VoiceStartResult) :
    ClientState × List Effect :=
  if !speechSupported then
    (st, [Effect.toast "❌ Voice input not supported in this browser. Use Chrome or Edge desktop." Severity.error])
  else if !st.apiConnected then
    (st, [Effect.toast "❌ Not connected to server" Severity.error])
  else if st.isListening then
    (st, [Effect.toast "⚠️ Already listening..." Severity.warning])
  else
    let st1 := { st with isListening := true, loadingShown := true }
    match startRes with
    | VoiceStartResult.started =>
        (st1, [Effect.voiceButtonUpdate true, Effect.showLoading "🎤 Listening... Speak now",
               Effect.startRecognition])
    | VoiceStartResult.startFailed =>
        ({ st1 with isListening := false, loadingShown := false },
         [Effect.voiceButtonUpdate true, Effect.showLoading "🎤 Listening... Speak now",
          Effect.hideLoading, Effect.voiceButtonUpdate false,
          Effect.toast "❌ Could not start voice recognition" Severity.error])

/-- The `recognition.onresult` handler installed by `handleVoiceInput`:
hide the overlay, trim the transcript, warn on an empty transcript,
otherwise render the user turn, bump both counters, run `processCommand`
on the transcript (note: without consulting the processing flag), and
speak the last assistant reply when non-empty. -/
def handleVoiceResult (st : ClientState) (rawTranscript : String) (outcome : ProcessOutcome) (ts : String) :
    ClientState × List Effect :=
  let stHidden := { st with loadingShown := false }
  let transcript := jsTrim rawTranscript
  if transcript = "" then
    (stHidden, [Effect.hideLoading, Effect.toast "⚠️ No speech detected. Please try again." Severity.warning])
  else
    let st1 := { stHidden with
      stats := { messageCount := stHidden.stats.messageCount + 1,
                 voiceCount := stHidden.stats.voiceCount + 1 } }
    let after := processCommand st1 transcript outcome ts
    let speakEffs :=
      match after.1.conversationHistory.getLast? with
      | some lastTurn => if lastTurn.assistant ≠ "" then speakText lastTurn.assistant else []
      | none => []
    (after.1,
      [Effect.hideLoading, Effect.removeWelcome, Effect.chatMessage transcript "user" false,
       Effect.updateStats] ++ after.2 ++ speakEffs)

/-- `handleClearConversation` of the source: after the confirm dialog, issue
`DELETE /history`; on a 2xx response reset the history and both counters
and restore the welcome view; otherwise toast an error. -/
def handleClearConversation (st : ClientState) (confirmed : Bool) (result : SimpleResult) :
    ClientState × List Effect :=
  if !confirmed then (st, [])
  else
    match result with
    | SimpleResult.ok =>
        ({ st with conversationHistory := [], stats := { messageCount := 0, voiceCount := 0 } },
         [Effect.netCall "DELETE" "/history", Effect.updateStats, Effect.renderWelcome,
          Effect.toast "✅ Conversation cleared" Severity.success])
    | SimpleResult.httpError =>
        (st, [Effect.netCall "DELETE" "/history",
              Effect.toast "❌ Failed to clear conversation" Severity.error])
    | SimpleResult.transportError =>
        (st, [Effect.netCall "DELETE" "/history",
              Effect.toast "❌ Error clearing conversation" Severity.error])

/-- `updateRemindersUI` of the source as a pure rendering function of the
cache: the empty-state placeholder when the cache is empty, otherwise one
row per reminder interpolating its `time`, its escaped `text`, and a
delete button bound to its `id`. -/
def updateRemindersUI (reminders : List Reminder) : RemindersView :=
  if reminders.length = 0 then RemindersView.emptyPlaceholder
  else RemindersView.rows (reminders.map fun r =>
    { timeLabel := r.time, textHtml := escapeHtml r.text, deleteTargetId := r.id })

/-- `fetchReminders` of the source: silent no-op when disconnected;
otherwise issue `GET /reminders` and, on an ok response whose body has
`success`, replace the cache wholesale and re-render; every failure is
silent. -/
def fetchReminders (st : ClientState) (result : RemindersFetchResult) : ClientState × List Effect :=
  if !st.apiConnected then (st, [])
  else
    match result with
    | RemindersFetchResult.ok true rs =>
        let newRs := rs.getD []
        ({ st with reminders := newRs },
         [Effect.netCall "GET" "/reminders", Effect.renderReminders (updateRemindersUI newRs)])
    | RemindersFetchResult.ok false _ =>
        (st, [Effect.netCall "GET" "/reminders"])
    | RemindersFetchResult.httpError =>
        (st, [Effect.netCall "GET" "/reminders"])
    | RemindersFetchResult.transportError =>
        (st, [Effect.netCall "GET" "/reminders"])

/-- `deleteReminder` of the source: issue `DELETE /reminders/{id}`
unconditionally (the connection flag is not consulted); on a 2xx response
toast success and trigger a re-fetch; on a non-2xx status or a thrown
error toast the corresponding error; the local state is never touched. -/
def deleteReminder (st : ClientState) (reminderId : Nat) (result : SimpleResult) :
    ClientState × List Effect :=
  match result with
  | SimpleResult.ok =>
      (st, [Effect.netCall "DELETE" ("/reminders/" ++ toString reminderId),
            Effect.toast "✅ Reminder deleted" Severity.success, Effect.fetchRemindersNow])
  | SimpleResult.httpError =>
      (st, [Effect.netCall "DELETE" ("/reminders/" ++ toString reminderId),
            Effect.toast "❌ Failed to delete reminder" Severity.error])
  | SimpleResult.transportError =>
      (st, [Effect.netCall "DELETE" ("/reminders/" ++ toString reminderId),
            Effect.toast "❌ Error deleting reminder" Severity.error])

/-- `checkReminderAlerts` of the source: poll `GET /trigger_popup`; when the
body has a truthy `success` and a truthy (non-empty) `message`, show the
popup, speak "Reminder: " prefixed to the message, and toast a warning;
otherwise do nothing; thrown errors are logged only. -/
def checkReminderAlerts (result : TriggerResult) : List Effect :=
  match result with
  | TriggerResult.fetchError => [Effect.netCall "GET" "/trigger_popup"]
  | TriggerResult.ok success message =>
      [Effect.netCall "GET" "/trigger_popup"] ++
        (if success && truthyOptStr message then
          let m := message.getD ""
          [Effect.popup m] ++ speakText ("Reminder: " ++ m) ++
            [Effect.toast ("⏰ " ++ m) Severity.warning]
        else [])

/-- Effect classifiers used by the statements below. -/
def isNetCall : Effect → Bool
  | Effect.netCall _ _ => true
  | _ => false

def isPopup : Effect → Bool
  | Effect.popup _ => true
  | _ => false

def isSpeak : Effect → Bool
  | Effect.speak _ => true
  | _ => false

def isToast : Effect → Bool
  | Effect.toast _ _ => true
  | _ => false

def isWarningToast : Effect → Bool
  | Effect.toast _ Severity.warning => true
  | _ => false

def isErrorToast : Effect → Bool
  | Effect.toast _ Severity.error => true
  | _ => false

def countNetCalls (effs : List Effect) : Nat := effs.countP isNetCall

def countPopups (effs : List Effect) : Nat := effs.countP isPopup

def countSpeaks (effs : List Effect) : Nat := effs.countP isSpeak

def countToasts (effs : List Effect) : Nat := effs.countP isToast

def countWarningToasts (effs : List Effect) : Nat := effs.countP isWarningToast

def countErrorToasts (effs : List Effect) : Nat := effs.countP isErrorToast

/-- A fresh connected idle client state, used to instantiate statements at
concrete inputs. -/
def st0 : ClientState :=
  { isListening := false, isProcessing := false, apiConnected := true,
    conversationHistory := [], reminders := [],
    stats := { messageCount := 0, voiceCount := 0 },
    loadingShown := false, statusLabel := "Connected" }

/-! Helper lemmas about `jsTrim`. -/

theorem string_data_append (a b : String) : (a ++ b).data = a.data ++ b.data := by
  cases a
  cases b
  rfl

theorem jsTrim_eq_empty_of_all_ws (s : String) (h : s.toList.all isWs = true) :
    jsTrim s = "" := by
  unfold jsTrim
  have h1 : s.toList.dropWhile isWs = [] := by
    rw [List.dropWhile_eq_nil_iff]
    intro x hx
    exact List.all_eq_true.mp h x hx
  rw [h1]
  rfl

theorem jsTrim_reminder_ne_empty (m : String) : jsTrim ("Reminder: " ++ m) ≠ "" := by
  unfold jsTrim
  intro hcontra
  have hlist : ((("Reminder: " ++ m).toList.dropWhile isWs).reverse.dropWhile isWs).reverse = [] := by
    have := congrArg String.data hcontra
    simpa using this
  rw [List.reverse_eq_nil_iff, List.dropWhile_eq_nil_iff] at hlist
  have hfront : ("Reminder: " ++ m).toList = 'R' :: ("eminder: ".toList ++ m.toList) := by
    show ("Reminder: " ++ m).data = 'R' :: ("eminder: ".data ++ m.data)
    rw [string_data_append]
    rfl
  have hdrop : ("Reminder: " ++ m).toList.dropWhile isWs
      = 'R' :: ("eminder: ".toList ++ m.toList) := by
    have hR : isWs 'R' = false := by decide
    rw [hfront, List.dropWhile_cons, hR]
    simp
  have hmem : 'R' ∈ (("Reminder: " ++ m).toList.dropWhile isWs).reverse := by
    rw [hdrop, List.mem_reverse]
    exact List.mem_cons_self _ _
  have := hlist 'R' hmem
  simp [isWs] at this

/-- C5: on every exit path of the command dispatcher's remote call —
success, application-level failure, or transport failure — the busy
indicator is cleared and the processing flag is released, so
`processCommand` always returns to an idle, submittable state. -/
theorem processCommand_clears_busy_and_flag (st : ClientState) (command ts : String)
    (outcome : ProcessOutcome) :
    (processCommand st command outcome ts).1.isProcessing = false ∧
    (processCommand st command outcome ts).1.loadingShown = false := by
  cases outcome with
  | transportError => simp [processCommand]
  | response s resp err => cases s <;> simp [processCommand]

/-- C9: for every command text that is empty or whitespace-only, submit
issues no remote call and always shows a warning notification (and leaves
the state untouched). -/
theorem handleSendMessage_blank_warns_no_call (st : ClientState) (input ts : String)
    (outcome : ProcessOutcome) (h : input.toList.all isWs = true) :
    handleSendMessage st input outcome ts
      = (st, [Effect.toast "⚠️ Please enter a message" Severity.warning]) := by
  have hempty : jsTrim input = "" := jsTrim_eq_empty_of_all_ws input h
  simp [handleSendMessage, hempty]

/-- Witness for C9 at the concrete whitespace-only input `"   "`. -/
theorem handleSendMessage_blank_warns_no_call_witness :
    "   ".toList.all isWs = true ∧
    handleSendMessage st0 "   " ProcessOutcome.transportError "t0"
      = (st0, [Effect.toast "⚠️ Please enter a message" Severity.warning]) :=
  ⟨by decide, handleSendMessage_blank_warns_no_call st0 "   " "t0" ProcessOutcome.transportError (by decide)⟩

/-- C10: the due-reminder alert fires only when the poll response's success
flag is true: a trigger-check response carrying a non-empty message but
`success = false` produces no popup, no spoken utterance, and no toast. -/
theorem alert_requires_success_flag (message : Option String)
    (_h : truthyOptStr message = true) :
    checkReminderAlerts (TriggerResult.ok false message)
      = [Effect.netCall "GET" "/trigger_popup"] := by
  simp [checkReminderAlerts]

/-- Witness for C10 at the concrete message `"drink water"`. -/
theorem alert_requires_success_flag_witness :
    truthyOptStr (some "drink water") = true ∧
    checkReminderAlerts (TriggerResult.ok false (some "drink water"))
      = [Effect.netCall "GET" "/trigger_popup"] :=
  ⟨by decide, alert_requires_success_flag (some "drink water") (by decide)⟩

/-- Counterexample to C1 as stated: the response `{success: false,
message: "drink water"}` has a non-empty message payload, yet the client
performs no popup, no utterance, and no toast. -/
theorem checkReminderAlerts_message_without_success_cex :
    countPopups (checkReminderAlerts (TriggerResult.ok false (some "drink water"))) = 0 ∧
    countSpeaks (checkReminderAlerts (TriggerResult.ok false (some "drink water"))) = 0 ∧
    countWarningToasts (checkReminderAlerts (TriggerResult.ok false (some "drink water"))) = 0 := by
  decide

/-- C1 (amended): for every trigger-check response whose success flag is
true and whose message payload is non-empty, the client performs exactly
one popup, exactly one spoken utterance, and exactly one warning toast;
every other response (success flag false, missing or empty message, or a
thrown fetch error) produces none of the three effects. -/
theorem checkReminderAlerts_success_and_message_spec (m : String) (hm : m ≠ "") :
    (countPopups (checkReminderAlerts (TriggerResult.ok true (some m))) = 1 ∧
     countSpeaks (checkReminderAlerts (TriggerResult.ok true (some m))) = 1 ∧
     countWarningToasts (checkReminderAlerts (TriggerResult.ok true (some m))) = 1) ∧
    (∀ s : Bool, ∀ message : Option String, (s && truthyOptStr message) = false →
      checkReminderAlerts (TriggerResult.ok s message)
        = [Effect.netCall "GET" "/trigger_popup"]) ∧
    checkReminderAlerts TriggerResult.fetchError = [Effect.netCall "GET" "/trigger_popup"] := by
  refine ⟨?_, ?_, rfl⟩
  · have htr : truthyOptStr (some m) = true := by
      simp [truthyOptStr, hm]
    have hspeak : speakText ("Reminder: " ++ m)
        = [Effect.speechCancel, Effect.speak ("Reminder: " ++ m)] := by
      unfold speakText
      rw [if_neg]
      rintro (habs | habs)
      · have : ("Reminder: " ++ m).data = "".data := congrArg String.data habs
        rw [string_data_append] at this
        simp at this
      · exact jsTrim_reminder_ne_empty m habs
    simp [checkReminderAlerts, htr, hspeak, countPopups, countSpeaks, countWarningToasts,
      List.countP_cons, isPopup, isSpeak, isWarningToast]
  · intro s message hfalse
    simp [checkReminderAlerts, hfalse]

/-- Witness for the amended C1 at the concrete message `"drink water"`. -/
theorem checkReminderAlerts_success_and_message_spec_witness :
    ("drink water" : String) ≠ "" ∧
    countPopups (checkReminderAlerts (TriggerResult.ok true (some "drink water"))) = 1 :=
  ⟨by decide, (checkReminderAlerts_success_and_message_spec "drink water" (by decide)).1.1⟩

/-- Counterexample to C2 as stated: with a prior command still in flight
(`isProcessing = true`), a voice-transcribed submission is not dropped —
the `onresult` handler invokes `processCommand`, which issues a second
remote call. -/
theorem voice_result_bypasses_processing_flag_cex :
    countNetCalls (handleVoiceResult { st0 with isProcessing := true } "hello"
      (ProcessOutcome.response true "hi there" none) "t0").2 = 1 := by
  decide

/-- C2 (amended): while a prior command call is unresolved (the processing
flag is set), typed and quick-command submissions are dropped without
issuing a second remote call; voice-transcribed submissions are not
guarded by the processing flag and do issue a call. -/
theorem processing_flag_drops_typed_and_quick (st : ClientState) (input cmd ts : String)
    (o o2 : ProcessOutcome) (h : st.isProcessing = true) :
    countNetCalls (handleSendMessage st input o ts).2 = 0 ∧
    countNetCalls (sendQuickCommand st cmd o2 ts).2 = 0 := by
  have key : ∀ v : String, ∀ oc : ProcessOutcome,
      countNetCalls (handleSendMessage st v oc ts).2 = 0 := by
    intro v oc
    unfold handleSendMessage
    by_cases h1 : jsTrim v = ""
    · simp [h1, countNetCalls, List.countP_cons, List.countP_nil, isNetCall]
    · cases hb : st.apiConnected
      · simp [h1, hb, countNetCalls, List.countP_cons, List.countP_nil, isNetCall]
      · simp [h1, hb, h, countNetCalls, List.countP_nil]
  exact ⟨key input o, key cmd o2⟩

/-- Witness for the amended C2 at a concrete in-flight state. -/
theorem processing_flag_drops_typed_and_quick_witness :
    ({ st0 with isProcessing := true } : ClientState).isProcessing = true ∧
    countNetCalls (handleSendMessage { st0 with isProcessing := true } "hello"
      ProcessOutcome.transportError "t0").2 = 0 :=
  ⟨rfl, (processing_flag_drops_typed_and_quick { st0 with isProcessing := true }
    "hello" "hi" "t0" ProcessOutcome.transportError ProcessOutcome.transportError rfl).1⟩

/-- Counterexample to C3 as stated: with the client disconnected, deleting
a reminder and clearing the conversation do not short-circuit — each still
issues its network call. -/
theorem delete_and_clear_call_when_disconnected_cex :
    countNetCalls (deleteReminder { st0 with apiConnected := false } 7
      SimpleResult.transportError).2 = 1 ∧
    countNetCalls (handleClearConversation { st0 with apiConnected := false } true
      SimpleResult.transportError).2 = 1 := by
  decide

/-- C3 (amended): while disconnected, submitting a (non-blank) command and
starting voice capture each short-circuit with an error notification and
issue no network call; deleting a reminder and clearing a confirmed
conversation are not gated on the connection flag and issue their network
call regardless. -/
theorem disconnected_gates_send_and_voice (st : ClientState) (input ts : String)
    (o : ProcessOutcome) (startRes : VoiceStartResult) (rid : Nat) (dres cres : SimpleResult)
    (hconn : st.apiConnected = false) (hinput : jsTrim input ≠ "") :
    handleSendMessage st input o ts
      = (st, [Effect.toast "❌ Not connected to server" Severity.error]) ∧
    handleVoiceInput st true startRes
      = (st, [Effect.toast "❌ Not connected to server" Severity.error]) ∧
    countNetCalls (deleteReminder st rid dres).2 = 1 ∧
    countNetCalls (handleClearConversation st true cres).2 = 1 := by
  refine ⟨?_, ?_, ?_, ?_⟩
  · simp [handleSendMessage, hinput, hconn]
  · simp [handleVoiceInput, hconn]
  · cases dres <;> simp [deleteReminder, countNetCalls, List.countP_cons, isNetCall]
  · cases cres <;> simp [handleClearConversation, countNetCalls, List.countP_cons, isNetCall]

/-- Witness for the amended C3 at a concrete disconnected state. -/
theorem disconnected_gates_send_and_voice_witness :
    ({ st0 with apiConnected := false } : ClientState).apiConnected = false ∧
    jsTrim "hello" ≠ "" ∧
    handleSendMessage { st0 with apiConnected := false } "hello"
        ProcessOutcome.transportError "t0"
      = ({ st0 with apiConnected := false },
         [Effect.toast "❌ Not connected to server" Severity.error]) :=
  ⟨rfl, by decide,
    (disconnected_gates_send_and_voice { st0 with apiConnected := false } "hello" "t0"
      ProcessOutcome.transportError VoiceStartResult.started 7
      SimpleResult.transportError SimpleResult.transportError rfl (by decide)).1⟩

/-- Counterexample to C4 as stated: from a fresh connected state, an
accepted submission that ends in transport failure still increments the
message counter (to 1) while appending no ConversationTurn, and the
success-response handling of `processCommand` by itself leaves the counter
unchanged — the increment is not part of handling the success response. -/
theorem counter_incremented_at_accept_cex :
    ((handleSendMessage st0 "hi" ProcessOutcome.transportError "t0").1.stats.messageCount = 1 ∧
     (handleSendMessage st0 "hi" ProcessOutcome.transportError "t0").1.conversationHistory = []) ∧
    (processCommand st0 "hi" (ProcessOutcome.response true "hello" none) "t0").1.stats.messageCount
      = st0.stats.messageCount := by
  decide

/-- C4 (amended): for every accepted command submission the message counter
is incremented once at acceptance time, before the remote call and
regardless of the outcome (the voice counter is untouched); a
ConversationTurn (user text, assistant text, timestamp) is appended only
when the response indicates success; on application-level or transport
failure the history is unchanged. -/
theorem accepted_submission_counter_and_turn (st : ClientState) (input ts resp : String)
    (err : Option String) (hmsg : jsTrim input ≠ "") (hconn : st.apiConnected = true)
    (hproc : st.isProcessing = false) :
    ((handleSendMessage st input (ProcessOutcome.response true resp err) ts).1.stats.messageCount
        = st.stats.messageCount + 1 ∧
     (handleSendMessage st input (ProcessOutcome.response true resp err) ts).1.stats.voiceCount
        = st.stats.voiceCount ∧
     (handleSendMessage st input (ProcessOutcome.response true resp err) ts).1.conversationHistory
        = st.conversationHistory ++ [⟨jsTrim input, resp, ts⟩]) ∧
    ((handleSendMessage st input (ProcessOutcome.response false resp err) ts).1.stats.messageCount
        = st.stats.messageCount + 1 ∧
     (handleSendMessage st input (ProcessOutcome.response false resp err) ts).1.conversationHistory
        = st.conversationHistory) ∧
    ((handleSendMessage st input ProcessOutcome.transportError ts).1.stats.messageCount
        = st.stats.messageCount + 1 ∧
     (handleSendMessage st input ProcessOutcome.transportError ts).1.conversationHistory
        = st.conversationHistory) := by
  refine ⟨⟨?_, ?_, ?_⟩, ⟨?_, ?_⟩, ⟨?_, ?_⟩⟩ <;>
    simp [handleSendMessage, processCommand, hmsg, hconn, hproc]

/-- Witness for the amended C4 at the concrete input `"what time is it"`. -/
theorem accepted_submission_counter_and_turn_witness :
    jsTrim "what time is it" ≠ "" ∧ st0.apiConnected = true ∧ st0.isProcessing = false ∧
    (handleSendMessage st0 "what time is it"
        (ProcessOutcome.response true "It is 5 PM." none) "t0").1.stats.messageCount
      = st0.stats.messageCount + 1 :=
  ⟨by decide, rfl, rfl,
    (accepted_submission_counter_and_turn st0 "what time is it" "t0" "It is 5 PM." none
      (by decide) rfl rfl).1.1⟩

/-- Counterexample to C6 as stated: a health-check attempt that fails with
a non-success HTTP status sets ConnectionState to disconnected but emits
no notification of any kind. -/
theorem health_http_error_no_toast_cex :
    (checkAPIHealth st0 HealthResult.httpError).1.apiConnected = false ∧
    countToasts (checkAPIHealth st0 HealthResult.httpError).2 = 0 := by
  decide

/-- C6 (amended): every successful health-check attempt sets
ConnectionState to connected; a network-error attempt sets it to
disconnected and emits exactly one error notification; a non-success
HTTP status sets it to disconnected (status label "Connection Error")
but emits no notification. -/
theorem checkAPIHealth_status_spec (st : ClientState) (d : HealthData) :
    (checkAPIHealth st (HealthResult.ok d)).1.apiConnected = true ∧
    ((checkAPIHealth st HealthResult.httpError).1.apiConnected = false ∧
     (checkAPIHealth st HealthResult.httpError).1.statusLabel = "Connection Error" ∧
     countToasts (checkAPIHealth st HealthResult.httpError).2 = 0) ∧
    ((checkAPIHealth st HealthResult.networkError).1.apiConnected = false ∧
     countErrorToasts (checkAPIHealth st HealthResult.networkError).2 = 1) := by
  refine ⟨rfl, ⟨rfl, rfl, ?_⟩, rfl, ?_⟩ <;>
    simp [checkAPIHealth, updateConnectionStatus, countToasts, countErrorToasts,
      List.countP_cons, List.countP_nil, isToast, isErrorToast]

/-- C7: a reminder-delete request never modifies the local state (so the
cached reminder list is never changed, optimistically or otherwise), and
on failure — non-2xx status or transport error — the only effects are the
issued call and an error notification: no re-fetch, no re-render. -/
theorem deleteReminder_failure_preserves_cache (st : ClientState) (rid : Nat) :
    (∀ r : SimpleResult, (deleteReminder st rid r).1 = st) ∧
    (deleteReminder st rid SimpleResult.httpError).2
      = [Effect.netCall "DELETE" ("/reminders/" ++ toString rid),
         Effect.toast "❌ Failed to delete reminder" Severity.error] ∧
    (deleteReminder st rid SimpleResult.transportError).2
      = [Effect.netCall "DELETE" ("/reminders/" ++ toString rid),
         Effect.toast "❌ Error deleting reminder" Severity.error] := by
  refine ⟨?_, rfl, rfl⟩
  intro r
  cases r <;> rfl

/-- C8: reminder-list rendering is a pure function of the cache: the empty
cache renders the placeholder, and a non-empty cache renders exactly one
row per cached reminder, carrying that reminder's due-time label, its
(escaped) text, and a delete action bound to that reminder's id. -/
theorem updateRemindersUI_render_spec :
    updateRemindersUI [] = RemindersView.emptyPlaceholder ∧
    ∀ rs : List Reminder, rs ≠ [] →
      ∃ items : List ReminderRow,
        updateRemindersUI rs = RemindersView.rows items ∧
        items.length = rs.length ∧
        ∀ i : Nat, ∀ hi : i < items.length, ∀ hr : i < rs.length,
          (items.get ⟨i, hi⟩).timeLabel = (rs.get ⟨i, hr⟩).time ∧
          (items.get ⟨i, hi⟩).textHtml = escapeHtml (rs.get ⟨i, hr⟩).text ∧
          (items.get ⟨i, hi⟩).deleteTargetId = (rs.get ⟨i, hr⟩).id := by
  refine ⟨rfl, ?_⟩
  intro rs hne
  refine ⟨rs.map fun r => ⟨r.time, escapeHtml r.text, r.id⟩, ?_, ?_, ?_⟩
  · unfold updateRemindersUI
    rw [if_neg]
    intro hlen
    exact hne (List.length_eq_zero.mp hlen)
  · exact List.length_map rs _
  · intro i hi hr
    have hget : (rs.map fun r => (⟨r.time, escapeHtml r.text, r.id⟩ : ReminderRow)).get ⟨i, hi⟩
        = (fun r => (⟨r.time, escapeHtml r.text, r.id⟩ : ReminderRow)) (rs.get ⟨i, hr⟩) := by
      simp [List.getElem_map]
    rw [hget]
    exact ⟨rfl, rfl, rfl⟩

/-- Witness for C8 at the concrete one-element cache
`[{id := 1, time := "5:00 PM", text := "drink water"}]`. -/
theorem updateRemindersUI_render_spec_witness :
    updateRemindersUI [] = RemindersView.emptyPlaceholder ∧
    ∃ items : List ReminderRow,
      updateRemindersUI [⟨1, "5:00 PM", "drink water"⟩] = RemindersView.rows items ∧
      items.length = 1 := by
  obtain ⟨hempty, hrows⟩ := updateRemindersUI_render_spec
  obtain ⟨items, hview, hlen, -⟩ := hrows [⟨1, "5:00 PM", "drink water"⟩] (by decide)
  exact ⟨hempty, items, hview, hlen⟩
